import Mathlib

/-!
Verification of the PDF outline extractor (`Challenge_1a/extract_outline.py`).

The Python source is shallowly embedded: Python floats become `ℚ` (the
arithmetic in the source is plain +, *, /, comparisons, so rational
arithmetic models it exactly), Python strings become `String` operated on
through their `List Char` data (case functions model the ASCII behaviour of
`str.lower`, `str.isupper`, ..., which agrees with Python on the ASCII
inputs the pipeline handles), Python `None`-or-string results become
`Option String`, and the fixed regular expressions of the source are
compiled to token lists for a small backtracking matcher (`reMatch`).
-/

namespace PdfOutline

/-! ## Python string primitives -/

/-- Python whitespace class (`\s` over ASCII): space, tab, newline,
carriage return, vertical tab, form feed. -/
def pySpace (c : Char) : Bool :=
  c = ' ' || c = '\t' || c = '\n' || c = '\r' || c = '\x0b' || c = '\x0c'

/-- Python word-character class `\w` over ASCII: letters, digits, underscore. -/
def wordChar (c : Char) : Bool :=
  c.isAlpha || c.isDigit || c = '_'

/-- Python `str.strip()` on character lists: drop whitespace from both ends. -/
def stripChars (cs : List Char) : List Char :=
  ((cs.dropWhile pySpace).reverse.dropWhile pySpace).reverse

/-- Python `str.strip()`. -/
def pyStrip (s : String) : String := ⟨stripChars s.data⟩

/-- Python `str.lower()` (ASCII case folding, matching Python on ASCII input). -/
def pyLower (s : String) : String := ⟨s.data.map Char.toLower⟩

/-- substring containment, Python's `needle in hay`. -/
def containsSub (needle : List Char) : List Char → Bool
  | [] => needle.isEmpty
  | c :: t => needle.isPrefixOf (c :: t) || containsSub needle t

/-- Python `needle in hay` on strings. -/
def inStr (needle hay : String) : Bool := containsSub needle.data hay.data

/-- Python `str.split()` worker: `acc` holds the characters of the word currently
being read, in reverse. -/
def splitWSGo : List Char → List Char → List String
  | acc, [] => if acc.isEmpty then [] else [⟨acc.reverse⟩]
  | acc, c :: t =>
    if pySpace c then
      if acc.isEmpty then splitWSGo [] t else ⟨acc.reverse⟩ :: splitWSGo [] t
    else splitWSGo (c :: acc) t

/-- Python `str.split()`: split on whitespace runs, dropping empty pieces. -/
def pySplit (s : String) : List String := splitWSGo [] s.data

/-- Python `re.sub(r'\s+', ' ', text)` worker: the flag records whether we are
inside a whitespace run (whose first character has already been emitted
as the single replacement space). -/
def collapseGo : Bool → List Char → List Char
  | _, [] => []
  | inRun, c :: t =>
    if pySpace c then
      if inRun then collapseGo true t else ' ' :: collapseGo true t
    else c :: collapseGo false t

/-- Python `re.sub(r'\s+', ' ', text)`: collapse each whitespace run into a
single space. -/
def collapseWSChars (cs : List Char) : List Char := collapseGo false cs

/-- Python `re.sub(r'\s+', ' ', text)` on strings. -/
def collapseWS (s : String) : String := ⟨collapseWSChars s.data⟩

/-- Python `str.istitle()`: uppercase letters may only follow uncased characters,
lowercase letters only cased ones, and at least one cased character occurs.
`go` tracks whether the previous character was cased and whether any cased
character has been seen. -/
def istitleGo : List Char → Bool → Bool → Bool
  | [], _, seenCased => seenCased
  | c :: t, prevCased, seenCased =>
    if c.isUpper then
      if prevCased then false else istitleGo t true true
    else if c.isLower then
      if prevCased then istitleGo t true true else false
    else istitleGo t false seenCased

/-- Python `str.istitle()`. -/
def pyIstitle (s : String) : Bool := istitleGo s.data false false

/-- Python `str.isupper()`: no lowercase letters and at least one uppercase letter. -/
def pyIsupperChars (cs : List Char) : Bool :=
  cs.any Char.isUpper && cs.all (fun c => !c.isLower)

/-- Python `str.isupper()`. -/
def pyIsupper (s : String) : Bool := pyIsupperChars s.data

/-- Python `str.isdigit()`: nonempty and all digits. -/
def pyIsdigit (s : String) : Bool :=
  !s.data.isEmpty && s.data.all Char.isDigit

/-- Python `str.endswith(suffix)` for a single-character suffix. -/
def endsWithChar (s : String) (c : Char) : Bool :=
  match s.data.getLast? with
  | some d => d = c
  | none => false

/-- number of occurrences of character `c` in `s` (`str.count` for a
one-character needle). -/
def countChar (s : String) (c : Char) : Nat := s.data.count c

/-- number of characters of `s` satisfying `p`
(`sum(1 for c in text if p(c))`). -/
def countIf (s : String) (p : Char → Bool) : Nat := (s.data.filter p).length

/-! ## Regex engine

Each fixed regular expression of the source is compiled to a `List RTok`;
`reMatch` is a backtracking matcher, so it decides existence of a match
exactly as Python's `re` does on these patterns (all of them use only
character classes, `?`, `*`, `+`, bounded repetition and `$`). -/

/-- One token of a compiled regular expression: a single character of a
class, an optional character (`?`), zero-or-more (`*`), or end of string
(`$`). -/
inductive RTok where
  | cls (p : Char → Bool)
  | optc (p : Char → Bool)
  | star (p : Char → Bool)
  | eos

/-- Backtracking matcher worker.  Every step shortens the token list or the
string, so fuel `ts.length + s.length + 1` is always sufficient and the
zero-fuel branch is never reached; fuel keeps the recursion structural. -/
def reMatchGo : Nat → List RTok → List Char → Bool
  | 0, _, _ => false
  | _ + 1, [], _ => true
  | f + 1, RTok.eos :: ts, s => s.isEmpty && reMatchGo f ts s
  | _ + 1, RTok.cls _ :: _, [] => false
  | f + 1, RTok.cls p :: ts, c :: s => p c && reMatchGo f ts s
  | f + 1, RTok.optc p :: ts, s =>
    reMatchGo f ts s ||
      (match s with
       | [] => false
       | c :: s' => p c && reMatchGo f ts s')
  | f + 1, RTok.star p :: ts, s =>
    reMatchGo f ts s ||
      (match s with
       | [] => false
       | c :: s' => p c && reMatchGo f (RTok.star p :: ts) s')

/-- Backtracking matcher: does some prefix of `s` match the token list
(Python `re.match` semantics, unanchored at the end unless the pattern
ends in `RTok.eos`)? -/
def reMatch (ts : List RTok) (s : List Char) : Bool :=
  reMatchGo (ts.length + s.length + 1) ts s

/-- Python `re.search`: a match starting at some position. -/
def reSearch (ts : List RTok) : List Char → Bool
  | [] => reMatch ts []
  | c :: t => reMatch ts (c :: t) || reSearch ts t

/-- Python `re.search` for a pattern beginning with `\b` followed by a word
character: a match starting at some position preceded by start-of-string or
a non-word character. -/
def reSearchBoundary (ts : List RTok) : Bool → List Char → Bool
  | atB, [] => atB && reMatch ts []
  | atB, c :: t => (atB && reMatch ts (c :: t)) || reSearchBoundary ts (!wordChar c) t

/-- literal characters of a string as tokens. -/
def litToks (s : String) : List RTok := s.data.map (fun c => RTok.cls (· = c))

/-- Tokens for `p+`. -/
def plusTok (p : Char → Bool) : List RTok := [RTok.cls p, RTok.star p]

/-- Wildcard `.` (any character except newline). -/
def dotAny (c : Char) : Bool := c ≠ '\n'

/-! ## Data model -/

/-- One extracted text element (`text_elements` entries produced by
`extract_text_with_formatting`); floats are modelled by `ℚ`. -/
structure TextElement where
  text : String
  font_size : ℚ
  font_name : String
  page : Nat
  y_position : ℚ
  is_bold : Bool
deriving Repr, DecidableEq

/-- One outline entry as built in `extract_outline` (only `level`, `text`,
`page` are stored). -/
structure Heading where
  level : String
  text : String
  page : Nat
deriving Repr, DecidableEq

/-- The result dictionary of `extract_outline` (wall-clock timing fields
are outside the embedding; `error` is the optional `"error"` key). -/
structure OutlineResult where
  title : String
  outline : List Heading
  error : Option String
deriving Repr, DecidableEq

/-! ## TOC detection (`is_toc_entry`, `is_in_toc_section`) -/

/-- Pattern `r'.*\.{3,}\s*\d+$'` — text, then three or more dots, optional
whitespace, and a trailing page number. -/
def tocPatDots : List RTok :=
  [RTok.star dotAny, RTok.cls (· = '.'), RTok.cls (· = '.'), RTok.cls (· = '.'),
   RTok.star (· = '.'), RTok.star pySpace] ++ plusTok Char.isDigit ++ [RTok.eos]

/-- Pattern `r'.*\s+\d+$'` — text followed by whitespace and a trailing number. -/
def tocPatNum : List RTok :=
  [RTok.star dotAny] ++ plusTok pySpace ++ plusTok Char.isDigit ++ [RTok.eos]

/-- Pattern `r'^\d+\.\s+.*\s+\d+$'` — numbered entry with trailing page number. -/
def tocPatNumbered : List RTok :=
  plusTok Char.isDigit ++ [RTok.cls (· = '.')] ++ plusTok pySpace ++
    [RTok.star dotAny] ++ plusTok pySpace ++ plusTok Char.isDigit ++ [RTok.eos]

/-- Pattern `r'^[A-Z][a-z].*\s+\d+$'` — title-case line with trailing page number. -/
def tocPatTitle : List RTok :=
  [RTok.cls Char.isUpper, RTok.cls Char.isLower, RTok.star dotAny] ++
    plusTok pySpace ++ plusTok Char.isDigit ++ [RTok.eos]

/-- Python `toc_keywords` in `is_toc_entry`. -/
def tocKeywords : List String := ["contents", "index", "table of contents", "toc"]

/-- Python `is_toc_entry(text)`: the four TOC-entry regexes (matched against the
stripped text) or a TOC keyword in the lowered text. -/
def is_toc_entry (text0 : String) : Bool :=
  let text := pyStrip text0
  reMatch tocPatDots text.data || reMatch tocPatNum text.data ||
    reMatch tocPatNumbered text.data || reMatch tocPatTitle text.data ||
    tocKeywords.any (fun k => inStr k (pyLower text))

/-- Python `toc_indicators` in `is_in_toc_section`. -/
def tocIndicators : List String := ["table of contents", "contents", "index", "toc"]

/-- Python `is_in_toc_section(text, page)`: a TOC indicator keyword in the lowered
text, or an early page (≤ 6) whose text has the TOC-entry shape. -/
def is_in_toc_section (text : String) (page : Nat) : Bool :=
  tocIndicators.any (fun k => inStr k (pyLower text)) ||
    (page ≤ 6 && is_toc_entry text)

/-! ## Ensemble pre-filters -/

/-- Python `corruption_patterns` substring parts: `r'foooor'`, `r'Prr Prr Prr'`,
`r'Reeeequest'` (searched literally), and the mixed-case pattern
`r'[a-z]{1,2}[A-Z]{1,2}[a-z]{1,2}'`. -/
def corruptionMixedCase : List RTok :=
  [RTok.cls Char.isLower, RTok.optc Char.isLower,
   RTok.cls Char.isUpper, RTok.optc Char.isUpper,
   RTok.cls Char.isLower, RTok.optc Char.isLower]

/-- the `corruption_patterns` loop of `ensemble_heading_detection`. -/
def corruptionHit (text : String) : Bool :=
  inStr "foooor" text || inStr "Prr Prr Prr" text || inStr "Reeeequest" text ||
    reSearch corruptionMixedCase text.data

/-- Pattern `r'^\d+$'` — just a number. -/
def skipPatDigits : List RTok := plusTok Char.isDigit ++ [RTok.eos]

/-- Pattern `r'^\$\d+'` — dollar amount. -/
def skipPatDollar : List RTok := RTok.cls (· = '$') :: plusTok Char.isDigit

/-- Pattern `r'^\d+%$'` — percentage. -/
def skipPatPercent : List RTok :=
  plusTok Char.isDigit ++ [RTok.cls (· = '%'), RTok.eos]

/-- Pattern `r'^\d+\.\d+%$'` — decimal percentage. -/
def skipPatDecPercent : List RTok :=
  plusTok Char.isDigit ++ [RTok.cls (· = '.')] ++ plusTok Char.isDigit ++
    [RTok.cls (· = '%'), RTok.eos]

/-- Pattern `r'^\d+M\s*\(\d+%\)$'` — funding amounts like `35M (70%)`. -/
def skipPatFunding : List RTok :=
  plusTok Char.isDigit ++ [RTok.cls (· = 'M'), RTok.star pySpace, RTok.cls (· = '(')] ++
    plusTok Char.isDigit ++ [RTok.cls (· = '%'), RTok.cls (· = ')'), RTok.eos]

/-- Pattern `r'^[A-Z]\s*$'` — a single letter. -/
def skipPatSingleUpper : List RTok := [RTok.cls Char.isUpper, RTok.star pySpace, RTok.eos]

/-- Pattern `r'^\d+\.\d+$'` — a decimal number. -/
def skipPatDecimal : List RTok :=
  plusTok Char.isDigit ++ [RTok.cls (· = '.')] ++ plusTok Char.isDigit ++ [RTok.eos]

/-- Pattern `r'^March \d{4}$'` — dates. -/
def skipPatMarch : List RTok :=
  litToks "March " ++ List.replicate 4 (RTok.cls Char.isDigit) ++ [RTok.eos]

/-- Pattern `r'^\d{4}$'` — years. -/
def skipPatYear : List RTok := List.replicate 4 (RTok.cls Char.isDigit) ++ [RTok.eos]

/-- the `skip_patterns` loop of `ensemble_heading_detection`. -/
def skipPatternHit (text : String) : Bool :=
  [skipPatDigits, skipPatDollar, skipPatPercent, skipPatDecPercent, skipPatFunding,
   skipPatSingleUpper, skipPatDecimal, skipPatMarch, skipPatYear].any
    (fun p => reMatch p text.data)

/-- Python `title_indicators` of `ensemble_heading_detection`. -/
def titleIndicators : List String :=
  ["rfp:", "request for proposal", "proposal for", "business plan"]

/-- the title-overlap filter of `ensemble_heading_detection`. -/
def titleIndicatorHit (text : String) : Bool :=
  titleIndicators.any (fun k => inStr k (pyLower text))

/-- Python `main_section_keywords` of `ensemble_heading_detection`. -/
def mainSectionKeywords : List String :=
  ["ontario\x27s digital library", "critical component", "prosperity strategy",
   "summary", "background", "business plan to be developed",
   "approach and specific proposal requirements",
   "evaluation and awarding of contract", "appendix"]

/-- the `main_section_keywords` hard override of `ensemble_heading_detection`. -/
def mainSectionHit (text : String) : Bool :=
  mainSectionKeywords.any (fun k => inStr k (pyLower text))

/-! ## Numbering / structural patterns shared by the scorers -/

/-- Pattern `r'^\d+\.?\s+'`. -/
def patNum : List RTok :=
  plusTok Char.isDigit ++ [RTok.optc (· = '.')] ++ plusTok pySpace

/-- Pattern `r'^\d+\.\d+\.?\s+'`. -/
def patNumNum : List RTok :=
  plusTok Char.isDigit ++ [RTok.cls (· = '.')] ++ plusTok Char.isDigit ++
    [RTok.optc (· = '.')] ++ plusTok pySpace

/-- Pattern `r'^\d+\.\d+\.\d+\.?\s+'`. -/
def patNumNumNum : List RTok :=
  plusTok Char.isDigit ++ [RTok.cls (· = '.')] ++ plusTok Char.isDigit ++
    [RTok.cls (· = '.')] ++ plusTok Char.isDigit ++ [RTok.optc (· = '.')] ++
    plusTok pySpace

/-- Pattern `r'^[A-Z]\.?\s+'`. -/
def patLetter : List RTok :=
  [RTok.cls Char.isUpper, RTok.optc (· = '.')] ++ plusTok pySpace

/-- Pattern `r'^[IVX]+\.?\s+'`. -/
def patRoman : List RTok :=
  plusTok (fun c => c = 'I' || c = 'V' || c = 'X') ++ [RTok.optc (· = '.')] ++
    plusTok pySpace

/-- Python `re.search(r'\b(chapter|section|part)\s+\d+', text, re.IGNORECASE)`:
searched on the lowered text (word-character status is unchanged by
lowering). -/
def chapterSearch (text : String) : Bool :=
  ["chapter", "section", "part"].any (fun w =>
    reSearchBoundary (litToks w ++ plusTok pySpace ++ plusTok Char.isDigit)
      true (pyLower text).data)

/-- Python `re.search(r'\b(chapter|section|part|appendix)\s+\d+', text, re.IGNORECASE)`. -/
def chapterSearchA (text : String) : Bool :=
  ["chapter", "section", "part", "appendix"].any (fun w =>
    reSearchBoundary (litToks w ++ plusTok pySpace ++ plusTok Char.isDigit)
      true (pyLower text).data)

/-- maximum of a list of rationals (`max` on a nonempty Python list; `0`
for the empty list, on which the source never calls it). -/
def listMaxQ : List ℚ → ℚ
  | [] => 0
  | [x] => x
  | x :: y :: t => max x (listMaxQ (y :: t))

/-- minimum of a list of rationals (`min` on a nonempty Python list). -/
def listMinQ : List ℚ → ℚ
  | [] => 0
  | [x] => x
  | x :: y :: t => min x (listMinQ (y :: t))

/-! ## Multi-modal detector (`detect_heading_multi_modal`) -/

/-- Python `_is_section_start`: no surrounding context, or a gap above 50 from the
highest of the last three surrounding elements. -/
def is_section_start (element : TextElement) (surrounding : List TextElement) : Bool :=
  if surrounding.isEmpty then true
  else
    let current_y := element.y_position
    let prev_y := listMaxQ ((surrounding.drop (surrounding.length - 3)).map (·.y_position))
    current_y - prev_y > 50

/-- Python `_has_heading_alignment`: the source returns the placeholder `True`
whenever surrounding context exists. -/
def has_heading_alignment (_element : TextElement) (surrounding : List TextElement) : Bool :=
  if surrounding.isEmpty then false else true

/-- the flattened `heading_keywords` table of `_calculate_semantic_score`
(all languages, in dictionary order, duplicates kept: the source adds 0.15
once per (language, keyword) pair that occurs in the text). -/
def semanticKeywordsAll : List String :=
  -- en
  ["introduction", "overview", "background", "conclusion", "summary",
   "methodology", "approach", "results", "discussion", "references",
   "acknowledgement", "abstract", "contents", "objectives", "requirements",
   "structure", "career", "learning", "entry", "keeping", "business",
   "content", "fundamental", "principles", "practices", "processes",
   "methods", "techniques", "tools", "challenge", "mission", "theme",
   "round", "test", "case", "analysis", "research", "study",
   "timeline", "access", "training", "purchasing", "licensing",
   "support", "guidance", "advice", "investment", "value",
   "ontario", "digital", "library", "proposal", "developing", "plan",
   "critical", "component", "implementing", "road", "map", "prosperity",
   "strategy", "evaluation", "awarding", "contract", "committee",
   "appendix", "preamble", "membership", "reference", "resources",
   -- es
   "introducción", "resumen", "conclusión", "metodología", "resultados",
   "discusión", "referencias", "objetivos", "requisitos", "estructura",
   "contenido", "análisis", "investigación", "estudio",
   -- fr
   "introduction", "résumé", "conclusion", "méthodologie", "résultats",
   "discussion", "références", "objectifs", "exigences", "structure",
   "contenu", "analyse", "recherche", "étude",
   -- de
   "einleitung", "zusammenfassung", "schlussfolgerung", "methodik", "ergebnisse",
   "diskussion", "referenzen", "ziele", "anforderungen", "struktur",
   "inhalt", "analyse", "forschung", "studie",
   -- ja
   "はじめに", "概要", "結論", "方法", "結果", "考察", "参考文献",
   "目的", "要件", "構造", "内容", "分析", "研究", "調査",
   -- zh
   "介绍", "概述", "结论", "方法", "结果", "讨论", "参考文献",
   "目标", "要求", "结构", "内容", "分析", "研究", "调查"]

/-- Python `_calculate_semantic_score`. -/
def calculate_semantic_score (text : String) : ℚ :=
  let tl := pyLower text
  let s := (0.15 : ℚ) * ((semanticKeywordsAll.filter (fun k => inStr k tl)).length : ℚ)
    + (if pyIstitle text then (0.4 : ℚ) else 0)
    + (if pyIsupper text && text.length < 50 then (0.3 : ℚ) else 0)
    + (if (pySplit text).length ≤ 3 && pyIstitle text then (0.2 : ℚ) else 0)
  min s 1

/-- Python `_calculate_visual_hierarchy_score`. -/
def calculate_visual_hierarchy_score (element : TextElement)
    (surrounding : List TextElement) : ℚ :=
  if surrounding.length ≥ 2 then
    let current_y := element.y_position
    let prev_y := ((surrounding.getLast?).map (·.y_position)).getD 0
    let next_y := ((surrounding.head?).map (·.y_position)).getD current_y
    if |current_y - prev_y| > 30 ∨ |next_y - current_y| > 30 then 0.4 else 0
  else 0

/-- Python `_calculate_sequential_score`. -/
def calculate_sequential_score (text : String) : ℚ :=
  (if reMatch patNum text.data then (0.4 : ℚ)
   else if reMatch patNumNum text.data then 0.3
   else if reMatch patNumNumNum text.data then 0.2 else 0)
  + (if reMatch patLetter text.data then (0.3 : ℚ) else 0)
  + (if reMatch patRoman text.data then (0.3 : ℚ) else 0)
  + (if chapterSearch text then (0.5 : ℚ) else 0)

/-- Python `detect_heading_multi_modal`: filters, then the five weighted signals
(font 0.25, position 0.20, semantic 0.25, visual 0.15, sequential 0.15)
and internal thresholds 0.7 / 0.5 / 0.3.  (`max_ratio` is computed by the
source but unused by the scoring.) -/
def detect_heading_multi_modal (element : TextElement)
    (surrounding : List TextElement) (avg_font_size _max_font_size : ℚ) :
    Option String :=
  let text := pyStrip element.text
  if text.length < 3 ∨ text.length > 100 then none
  else if countChar text '.' > 2 then none
  else if (countIf text Char.isLower : ℚ) > (text.length : ℚ) * 0.8 then none
  else if element.y_position < 50 then none
  else
    let rFont : ℚ := if avg_font_size > 0 then element.font_size / avg_font_size else 1
    let fontScore : ℚ :=
      (if rFont > 1.5 then (0.9 : ℚ) else if rFont > 1.2 then 0.7
       else if rFont > 1.1 then 0.5 else 0)
      + (if element.is_bold then (0.2 : ℚ) else 0)
    let posScore : ℚ :=
      (if is_section_start element surrounding then (0.8 : ℚ) else 0)
      + (if has_heading_alignment element surrounding then (0.3 : ℚ) else 0)
    let semScore := calculate_semantic_score text
    let visScore := calculate_visual_hierarchy_score element surrounding
    let seqScore := calculate_sequential_score text
    let final := 0.25 * fontScore + 0.20 * posScore + 0.25 * semScore
      + 0.15 * visScore + 0.15 * seqScore
    if final > 0.7 then some "H1"
    else if final > 0.5 then some "H2"
    else if final > 0.3 then some "H3"
    else none

/-! ## Statistical classifier (`extract_ml_features`, `statistical_classifier`) -/

/-- the feature dictionary of `extract_ml_features` (the `*_ratio` fields
are named `*Frac` here). -/
structure MLFeatures where
  length : Nat
  word_count : Nat
  upperFrac : ℚ
  digitFrac : ℚ
  punctFrac : ℚ
  title_case_words : Nat
  ends_with_period : Bool
  starts_with_number : Bool
  contains_colon : Bool
  all_caps : Bool
  has_parentheses : Bool
  has_brackets : Bool
  avg_word_length : ℚ
  sentence_count : Nat
  comma_count : Nat
  dash_count : Nat
  underscore_count : Nat
deriving Repr, DecidableEq

/-- Python `extract_ml_features`. -/
def extract_ml_features (text : String) : MLFeatures :=
  let words := pySplit text
  { length := text.length
    word_count := words.length
    upperFrac := (countIf text Char.isUpper : ℚ) / ((max 1 text.length : Nat) : ℚ)
    digitFrac := (countIf text Char.isDigit : ℚ) / ((max 1 text.length : Nat) : ℚ)
    punctFrac := (countIf text (fun c => c ∈ ['.', ',', ';', ':', '!', '?']) : ℚ)
      / ((max 1 text.length : Nat) : ℚ)
    title_case_words := (words.filter pyIstitle).length
    ends_with_period := endsWithChar text '.'
    starts_with_number := reMatch (plusTok Char.isDigit) text.data
    contains_colon := inStr ":" text
    all_caps := pyIsupper text && text.length > 3
    has_parentheses := inStr "(" text && inStr ")" text
    has_brackets := inStr "[" text && inStr "]" text
    avg_word_length := ((words.map String.length).sum : ℚ)
      / ((max 1 words.length : Nat) : ℚ)
    sentence_count := countChar text '.' + countChar text '!' + countChar text '?'
    comma_count := countChar text ','
    dash_count := countChar text '-'
    underscore_count := countChar text '_' }

/-- Python `statistical_classifier`. -/
def statistical_classifier (f : MLFeatures) : ℚ :=
  let s : ℚ :=
    (if 5 ≤ f.length ∧ f.length ≤ 80 then (0.2 : ℚ)
     else if f.length > 100 then -0.3 else 0)
    + (if 1 ≤ f.word_count ∧ f.word_count ≤ 10 then (0.2 : ℚ)
       else if f.word_count > 15 then -0.2 else 0)
    + (if 0.3 ≤ f.upperFrac ∧ f.upperFrac ≤ 0.8 then (0.3 : ℚ)
       else if f.upperFrac > 0.9 then 0.1 else 0)
    + (if f.punctFrac < 0.1 then (0.2 : ℚ)
       else if f.punctFrac > 0.3 then -0.3 else 0)
    + (if (f.title_case_words : ℚ) ≥ (f.word_count : ℚ) * 0.5 then (0.3 : ℚ) else 0)
    + (if f.contains_colon then (0.1 : ℚ) else 0)
    + (if f.has_parentheses then (0.1 : ℚ) else 0)
    + (if f.starts_with_number then (0.2 : ℚ) else 0)
    + (if f.sentence_count = 0 then (0.2 : ℚ)
       else if f.sentence_count > 2 then -0.4 else 0)
  max 0 (min 1 s)

/-! ## Pattern classifier -/

/-- Python `pattern_classifier`. -/
def pattern_classifier (text : String) : ℚ :=
  let s : ℚ :=
    (if reMatch patNum text.data then (0.4 : ℚ)
     else if reMatch patNumNum text.data then 0.3
     else if reMatch patNumNumNum text.data then 0.2 else 0)
    + (if reMatch patLetter text.data then (0.3 : ℚ) else 0)
    + (if reMatch patRoman text.data then (0.3 : ℚ) else 0)
    + (if chapterSearchA text then (0.5 : ℚ) else 0)
    + (if endsWithChar text '?' then (0.2 : ℚ) else 0)
    + (if (pySplit text).length ≤ 5 && pyIstitle text then (0.3 : ℚ) else 0)
  max 0 (min 1 s)

/-! ## Position classifier -/

/-- Python `position_classifier`. -/
def position_classifier (element : TextElement)
    (surrounding : List TextElement) : ℚ :=
  if surrounding.isEmpty then 0.5
  else
    let current_y := element.y_position
    let prev := surrounding.filter (fun e => e.y_position < current_y)
    let s1 : ℚ :=
      if !prev.isEmpty then
        let spacing := current_y - listMaxQ (prev.map (·.y_position))
        if spacing > 50 then 0.4 else if spacing > 20 then 0.2 else 0
      else 0
    let s2 : ℚ := if current_y > 800 then 0.2 else 0
    max 0 (min 1 (s1 + s2))

/-! ## Language detection and language-specific scorers -/

/-- does the (lowered) sample contain any character of `chars`
(`any(c in sample_text for c in '...')`)? -/
def charAnyIn (chars sample : String) : Bool :=
  chars.data.any (fun c => sample.data.contains c)

/-- Python `detect_language`: first-match tests over the concatenated text of the
first 50 elements, in the source's fixed priority order. -/
def detect_language (text_elements : List TextElement) : String :=
  let sample := pyLower (String.join ((text_elements.take 50).map (fun e => e.text ++ " ")))
  if charAnyIn "あいうえおかきくけこさしすせそたちつてとなにぬねのはひふへほまみむめもやゆよらりるれろわをん" sample then "ja"
  else if charAnyIn "你好世界中国日本美国英国法国德国" sample then "zh"
  else if charAnyIn "ñáéíóúüñç" sample then "es"
  else if charAnyIn "àâäéèêëïîôöùûüÿç" sample then "fr"
  else if charAnyIn "äöüß" sample then "de"
  else if charAnyIn "абвгдеёжзийклмнопрстуфхцчшщъыьэюя" sample then "ru"
  else if charAnyIn "αβγδεζηθικλμνξοπρστυφχψω" sample then "el"
  else if charAnyIn "ابتثجحخدذرزسشصضطظعغفقكلمنهوي" sample then "ar"
  else "en"

/-- a CJK numeral `[一二三四五六七八九十]`. -/
def cjkNum (c : Char) : Bool :=
  c ∈ ['一', '二', '三', '四', '五', '六', '七', '八', '九', '十']

/-- Pattern `r'第[一二三四五六七八九十]+章'`. -/
def cjkChapterPat : List RTok :=
  RTok.cls (· = '第') :: plusTok cjkNum ++ [RTok.cls (· = '章')]

/-- Pattern `r'[一二三四五六七八九十]+\.'`. -/
def cjkNumDotPat : List RTok := plusTok cjkNum ++ [RTok.cls (· = '.')]

/-- Python `_japanese_heading_score` (keywords are tested against the raw text). -/
def japanese_heading_score (text : String) : ℚ :=
  let kws : List String :=
    ["はじめに", "概要", "結論", "方法", "結果", "考察", "参考文献",
     "目的", "要件", "構造", "内容", "分析", "研究", "調査",
     "章", "節", "項", "目次", "序論", "本論", "まとめ"]
  let s := (0.2 : ℚ) * ((kws.filter (fun k => inStr k text)).length : ℚ)
    + (if reSearch cjkChapterPat text.data then (0.4 : ℚ)
       else if reSearch cjkNumDotPat text.data then 0.3 else 0)
  min 1 s

/-- Python `_chinese_heading_score` (keywords are tested against the raw text). -/
def chinese_heading_score (text : String) : ℚ :=
  let kws : List String :=
    ["介绍", "概述", "结论", "方法", "结果", "讨论", "参考文献",
     "目标", "要求", "结构", "内容", "分析", "研究", "调查",
     "章", "节", "项", "目录", "引言", "正文", "总结"]
  let s := (0.2 : ℚ) * ((kws.filter (fun k => inStr k text)).length : ℚ)
    + (if reSearch cjkChapterPat text.data then (0.4 : ℚ)
       else if reSearch cjkNumDotPat text.data then 0.3 else 0)
  min 1 s

/-- Python `_spanish_heading_score` (keywords tested against the lowered text). -/
def spanish_heading_score (text : String) : ℚ :=
  let kws : List String :=
    ["introducción", "resumen", "conclusión", "metodología", "resultados",
     "discusión", "referencias", "objetivos", "requisitos", "estructura",
     "contenido", "análisis", "investigación", "estudio", "capítulo",
     "sección", "apéndice", "índice"]
  min 1 ((0.2 : ℚ) * ((kws.filter (fun k => inStr k (pyLower text))).length : ℚ))

/-- Python `_french_heading_score`. -/
def french_heading_score (text : String) : ℚ :=
  let kws : List String :=
    ["introduction", "résumé", "conclusion", "méthodologie", "résultats",
     "discussion", "références", "objectifs", "exigences", "structure",
     "contenu", "analyse", "recherche", "étude", "chapitre",
     "section", "annexe", "index"]
  min 1 ((0.2 : ℚ) * ((kws.filter (fun k => inStr k (pyLower text))).length : ℚ))

/-- Python `_german_heading_score`. -/
def german_heading_score (text : String) : ℚ :=
  let kws : List String :=
    ["einleitung", "zusammenfassung", "schlussfolgerung", "methodik", "ergebnisse",
     "diskussion", "referenzen", "ziele", "anforderungen", "struktur",
     "inhalt", "analyse", "forschung", "studie", "kapitel",
     "abschnitt", "anhang", "verzeichnis"]
  min 1 ((0.2 : ℚ) * ((kws.filter (fun k => inStr k (pyLower text))).length : ℚ))

/-- Python `_russian_heading_score`. -/
def russian_heading_score (text : String) : ℚ :=
  let kws : List String :=
    ["введение", "резюме", "заключение", "методология", "результаты",
     "обсуждение", "ссылки", "цели", "требования", "структура",
     "содержание", "анализ", "исследование", "изучение", "глава",
     "раздел", "приложение", "оглавление"]
  min 1 ((0.2 : ℚ) * ((kws.filter (fun k => inStr k (pyLower text))).length : ℚ))

/-- Python `_english_heading_score`. -/
def english_heading_score (text : String) : ℚ :=
  let kws : List String :=
    ["introduction", "overview", "background", "conclusion", "summary",
     "methodology", "approach", "results", "discussion", "references",
     "acknowledgement", "abstract", "contents", "objectives", "requirements",
     "structure", "chapter", "section", "appendix", "index"]
  min 1 ((0.2 : ℚ) * ((kws.filter (fun k => inStr k (pyLower text))).length : ℚ))

/-- Python `language_specific_heading_detection`. -/
def language_specific_heading_detection (text language : String) : ℚ :=
  if language = "ja" then japanese_heading_score text
  else if language = "zh" then chinese_heading_score text
  else if language = "es" then spanish_heading_score text
  else if language = "fr" then french_heading_score text
  else if language = "de" then german_heading_score text
  else if language = "ru" then russian_heading_score text
  else english_heading_score text

/-! ## Font-agnostic detector -/

/-- Python `_is_at_page_top`. -/
def is_at_page_top (element : TextElement) : Bool :=
  element.y_position > 800

/-- Python `_is_at_section_start`. -/
def is_at_section_start (element : TextElement)
    (surrounding : List TextElement) : Bool :=
  if surrounding.isEmpty then true
  else
    let current_y := element.y_position
    let prev := surrounding.filter (fun e => e.y_position < current_y)
    if prev.isEmpty then true
    else current_y - listMaxQ (prev.map (·.y_position)) > 50

/-- the `heading_keywords` list of `_has_heading_semantics` (duplicates
kept, as in the source). -/
def fontAgnosticSemanticKeywords : List String :=
  ["introduction", "overview", "background", "conclusion", "summary",
   "methodology", "approach", "results", "discussion", "references",
   "acknowledgement", "abstract", "contents", "objectives", "requirements",
   "structure", "challenge", "mission", "theme", "round", "test", "case",
   "analysis", "research", "study", "chapter", "section", "part",
   "introducción", "resumen", "conclusión", "análisis", "investigación",
   "introduction", "résumé", "conclusion", "analyse", "recherche",
   "einleitung", "zusammenfassung", "analyse", "forschung",
   "はじめに", "概要", "結論", "分析", "研究",
   "介绍", "概述", "结论", "分析", "研究"]

/-- Python `_has_heading_semantics`. -/
def has_heading_semantics (text : String) : ℚ :=
  let tl := pyLower text
  let s := (0.1 : ℚ) * ((fontAgnosticSemanticKeywords.filter (fun k => inStr k tl)).length : ℚ)
    + (if pyIstitle text then (0.3 : ℚ) else 0)
    + (if pyIsupper text && text.length < 50 then (0.2 : ℚ) else 0)
    + (if endsWithChar text '?' then (0.2 : ℚ) else 0)
  min 1 s

/-- Python `_has_heading_structure`. -/
def has_heading_structure (text : String) : ℚ :=
  let s : ℚ :=
    (if reMatch patNum text.data then (0.4 : ℚ)
     else if reMatch patNumNum text.data then 0.3
     else if reMatch patNumNumNum text.data then 0.2 else 0)
    + (if reMatch patLetter text.data then (0.3 : ℚ) else 0)
    + (if reMatch patRoman text.data then (0.3 : ℚ) else 0)
    + (if chapterSearchA text then (0.5 : ℚ) else 0)
    + (if (pySplit text).length ≤ 5 && pyIstitle text then (0.3 : ℚ) else 0)
    + (if inStr ":" text then (0.1 : ℚ) else 0)
  min 1 s

/-- Python `_has_visual_hierarchy`. -/
def has_visual_hierarchy (element : TextElement)
    (surrounding : List TextElement) : ℚ :=
  if surrounding.isEmpty then 0.5
  else
    let current_y := element.y_position
    let prev := surrounding.filter (fun e => e.y_position < current_y)
    let next := surrounding.filter (fun e => e.y_position > current_y)
    let s : ℚ :=
      (if !prev.isEmpty then
        (if current_y - listMaxQ (prev.map (·.y_position)) > 30 then (0.3 : ℚ) else 0)
       else 0)
      + (if !next.isEmpty then
          (if listMinQ (next.map (·.y_position)) - current_y > 30 then (0.2 : ℚ) else 0)
         else 0)
      + (if element.is_bold then (0.2 : ℚ) else 0)
    min 1 s

/-- Python `font_agnostic_heading_detection`. -/
def font_agnostic_heading_detection (element : TextElement)
    (surrounding : List TextElement) : ℚ :=
  let text := pyStrip element.text
  if text.length < 3 ∨ text.length > 100 then 0
  else if countChar text '.' > 2 then 0
  else if (countIf text Char.isLower : ℚ) > (text.length : ℚ) * 0.8 then 0
  else
    let s : ℚ :=
      (if is_at_page_top element then (0.4 : ℚ)
       else if is_at_section_start element surrounding then 0.3 else 0)
      + has_heading_semantics text * 0.3
      + has_heading_structure text * 0.3
      + has_visual_hierarchy element surrounding * 0.2
    min 1 s

/-! ## Ensemble classifier (`ensemble_heading_detection`) -/

/-- the `scores`/`weights` fold of `ensemble_heading_detection`: the
weighted sum of the six sub-scores with weights multi_modal 0.15,
statistical 0.15, pattern 0.15, language_specific 0.15, position 0.15,
font_agnostic 0.25 (the multi-modal level is re-expressed as the binary
signal `0.8` when present, `0.0` when absent).  The statistical, pattern
and language classifiers receive the stripped text, as in the source. -/
def ensembleFinalScore (element : TextElement) (surrounding : List TextElement)
    (avg_font_size max_font_size : ℚ) (language : String) : ℚ :=
  0.15 * (if (detect_heading_multi_modal element surrounding avg_font_size
      max_font_size).isSome then (0.8 : ℚ) else 0)
  + 0.15 * statistical_classifier (extract_ml_features (pyStrip element.text))
  + 0.15 * pattern_classifier (pyStrip element.text)
  + 0.15 * language_specific_heading_detection (pyStrip element.text) language
  + 0.15 * position_classifier element surrounding
  + 0.25 * font_agnostic_heading_detection element surrounding

/-- Python `ensemble_heading_detection`: pre-filters (the source rejects through a
sequence of early `return None`s on the stripped text, gathered here into
one disjunctive guard), the `main_section_keywords` hard override, then
the weighted vote with thresholds 0.5 / 0.35 / 0.2 / 0.1.  `language` is
the extractor's `detected_language` state. -/
def ensemble_heading_detection (element : TextElement)
    (surrounding : List TextElement) (avg_font_size max_font_size : ℚ)
    (language : String) : Option String :=
  if (pyStrip element.text).length < 3 ∨ (pyStrip element.text).length > 150 ∨
      countChar (pyStrip element.text) '.' > 3 ∨
      ((countIf (pyStrip element.text) Char.isLower : ℚ) >
        ((pyStrip element.text).length : ℚ) * 0.85) ∨
      element.y_position < 30 ∨
      corruptionHit (pyStrip element.text) = true ∨
      skipPatternHit (pyStrip element.text) = true ∨
      titleIndicatorHit (pyStrip element.text) = true then none
  else if mainSectionHit (pyStrip element.text) then some "H1"
  else if ensembleFinalScore element surrounding avg_font_size max_font_size
      language > 0.5 then some "H1"
  else if ensembleFinalScore element surrounding avg_font_size max_font_size
      language > 0.35 then some "H2"
  else if ensembleFinalScore element surrounding avg_font_size max_font_size
      language > 0.2 then some "H3"
  else if ensembleFinalScore element surrounding avg_font_size max_font_size
      language > 0.1 then some "H4"
  else none

/-! ## Title extraction -/

/-- Python `_is_valid_title` (the trailing `title_patterns` loop of the source
returns `True` whether or not a pattern matches, so only the rejection
checks are material). -/
def is_valid_title (title : String) : Bool :=
  if title = "" || title.length < 8 then false
  else if ["copyright", "version", "page", "©", "international", "foundation",
           "all rights reserved", "confidential", "draft", "preliminary"].any
          (fun p => inStr p (pyLower title)) then false
  else if pyIsdigit ⟨title.data.filter (· ≠ ' ')⟩ || (pySplit title).length < 2 then false
  else if title.length > 400 then false
  else if !(title.data.any Char.isAlpha) then false
  else true

/-- Pattern `r'RFP:?\s*Request for Proposal'` with `re.IGNORECASE`, searched on the
lowered text. -/
def rfpPatToks : List RTok :=
  litToks "rfp" ++ [RTok.optc (· = ':'), RTok.star pySpace] ++
    litToks "request for proposal"

/-- the `rfp_patterns` check of `_extract_rfp_title` (all searches are
case-insensitive; all but the first are literal substrings). -/
def is_rfp_related (text : String) : Bool :=
  let tl := pyLower text
  reSearch rfpPatToks tl.data || inStr "request for proposal" tl ||
    inStr "rfp:" tl || inStr "request for" tl || inStr "proposal for" tl ||
    inStr "oposal" tl || inStr "quest" tl

/-- the `is_title_like` test of `_extract_rfp_title`. -/
def is_title_like (text : String) : Bool :=
  text.length > 3 && (pyIstitle text || pyIsupper text) &&
    !endsWithChar text '.' && !pyIsdigit text &&
    !(text.data.take 3).any Char.isDigit

/-- the candidate-skip word list shared by the title strategies. -/
def titleSkipWords : List String := ["page", "copyright", "©", "version", "confidential"]

/-- sort order `key=lambda x: (x['page'], -x.get('y_position', 0))` — page
ascending, then top of page first. -/
def titleSortLe (a b : TextElement) : Bool :=
  a.page < b.page || (a.page == b.page && decide (b.y_position ≤ a.y_position))

/-- the candidate-merging loop of `_extract_rfp_title` over the first 20
sorted candidates, carrying `title_parts`, `current_page`, `current_y`. -/
def rfpLoop : List TextElement → List String → Nat → ℚ → String
  | [], parts, _, _ =>
    if !parts.isEmpty then
      let combined := String.intercalate " " parts
      if is_valid_title combined then combined else ""
    else ""
  | elem :: rest, parts, current_page, current_y =>
    let text := pyStrip elem.text
    if elem.page == current_page && |elem.y_position - current_y| < 250 then
      rfpLoop rest (parts ++ [text]) current_page elem.y_position
    else if elem.page == current_page + 1 && decide (elem.y_position > 500) then
      rfpLoop rest (parts ++ [text]) elem.page elem.y_position
    else
      if !parts.isEmpty && decide ((String.intercalate " " parts).length > 20) &&
          is_valid_title (String.intercalate " " parts) then
        String.intercalate " " parts
      else rfpLoop rest [text] elem.page elem.y_position

/-- Python `_extract_rfp_title`. -/
def extract_rfp_title (text_elements : List TextElement) : String :=
  if text_elements.isEmpty then ""
  else
    let cands := (text_elements.take 150).filter (fun elem =>
      let text := pyStrip elem.text
      !(titleSkipWords.any (fun k => inStr k (pyLower text))) &&
        (is_rfp_related text || is_title_like text))
    if cands.isEmpty then ""
    else
      let sorted := cands.mergeSort titleSortLe
      match sorted with
      | [] => ""   -- not reached: cands is nonempty
      | c0 :: _ => rfpLoop (sorted.take 20) [] c0.page c0.y_position

/-- the inner `for k in range(i, j+1)` loop of `_extract_largest_font_title`
(`continue` on skip words, `break` when the element is not adjacent). -/
def lfInner : List TextElement → List String → Nat → ℚ → List String
  | [], parts, _, _ => parts
  | elem :: rest, parts, current_page, current_y =>
    let text := pyStrip elem.text
    if titleSkipWords.any (fun k => inStr k (pyLower text)) then
      lfInner rest parts current_page current_y
    else if elem.page == current_page && |elem.y_position - current_y| < 200 then
      lfInner rest (parts ++ [text]) current_page elem.y_position
    else if elem.page == current_page + 1 && decide (elem.y_position > 600) then
      lfInner rest (parts ++ [text]) elem.page elem.y_position
    else parts

/-- the candidate score of `_extract_largest_font_title`. -/
def lfScore (combined : String) : Nat :=
  combined.length
    + (if inStr "rfp" (pyLower combined) then 50 else 0)
    + (if inStr "proposal" (pyLower combined) then 30 else 0)
    + (if inStr "business plan" (pyLower combined) then 30 else 0)
    + (if inStr "digital library" (pyLower combined) then 20 else 0)

/-- the `(i, j)` double loop of `_extract_largest_font_title`
(`for i in range(len)`, `for j in range(i+1, min(i+6, len))`), keeping the
best-scoring valid combination. -/
def lfBest (cands : List TextElement) : String :=
  let n := cands.length
  let pairs := (List.range n).flatMap (fun i =>
    (List.range' (i + 1) (min (i + 6) n - (i + 1))).map (fun j => (i, j)))
  (pairs.foldl (fun (best : String × Nat) ij =>
    match cands.drop ij.1 with
    | [] => best   -- not reached: ij.1 < cands.length
    | c0 :: _ =>
      let parts := lfInner ((cands.drop ij.1).take (ij.2 - ij.1 + 1)) []
        c0.page c0.y_position
      if !parts.isEmpty then
        let combined := String.intercalate " " parts
        if is_valid_title combined then
          let score := lfScore combined
          if score > best.2 then (combined, score) else best
        else best
      else best) ("", 0)).1

/-- Python `_extract_largest_font_title`. -/
def extract_largest_font_title (text_elements : List TextElement) : String :=
  if text_elements.isEmpty then ""
  else
    let early := text_elements.filter (fun e => e.page ≤ 5)
    if early.isEmpty then ""
    else
      let max_font_size := listMaxQ (early.map (·.font_size))
      let cands := early.filter (fun e =>
        decide (e.font_size ≥ max_font_size * 0.8) &&
          decide (3 ≤ e.text.length) && decide (e.text.length ≤ 200))
      if !cands.isEmpty then
        let sorted := cands.mergeSort titleSortLe
        let best := lfBest sorted
        if best ≠ "" then best
        else
          match sorted with
          | [] => ""   -- not reached: cands is nonempty
          | c0 :: _ => pyStrip c0.text
      else ""

/-- Python `_extract_first_page_title`. -/
def extract_first_page_title (text_elements : List TextElement) : String :=
  let first := text_elements.filter (fun e => e.page == 1)
  if first.isEmpty then ""
  else
    match (first.take 10).find? (fun elem =>
      let text := pyStrip elem.text
      decide (text.length > 10) &&
        !(["copyright", "version", "page", "©"].any
          (fun p => p.data.isPrefixOf (pyLower text).data)) &&
        !pyIsdigit text && pyIstitle text) with
    | some elem => pyStrip elem.text
    | none => ""

/-- Python `[a-zA-Z\s]`. -/
def alphaWs (c : Char) : Bool := c.isAlpha || pySpace c

/-- Pattern `r'^[A-Z][a-zA-Z\s]{5,50}$'`. -/
def metaPat1 : List RTok :=
  RTok.cls Char.isUpper :: (List.replicate 5 (RTok.cls alphaWs) ++
    List.replicate 45 (RTok.optc alphaWs) ++ [RTok.eos])

/-- Pattern `r'^[A-Z][a-zA-Z\s]+:$'`. -/
def metaPat2 : List RTok :=
  [RTok.cls Char.isUpper] ++ plusTok alphaWs ++ [RTok.cls (· = ':'), RTok.eos]

/-- Pattern `r'^[A-Z][a-zA-Z\s]+[A-Z]$'`. -/
def metaPat3 : List RTok :=
  [RTok.cls Char.isUpper] ++ plusTok alphaWs ++ [RTok.cls Char.isUpper, RTok.eos]

/-- Python `_extract_document_metadata_title`. -/
def extract_document_metadata_title (text_elements : List TextElement) : String :=
  match (text_elements.take 20).find? (fun elem =>
    let text := pyStrip elem.text
    reMatch metaPat1 text.data || reMatch metaPat2 text.data ||
      reMatch metaPat3 text.data) with
  | some elem => pyStrip elem.text
  | none => ""

/-- Python `_extract_filename_title` (the source always returns the empty string). -/
def extract_filename_title (_text_elements : List TextElement) : String := ""

/-- Python `_extract_common_title_patterns`. -/
def extract_common_title_patterns (text_elements : List TextElement) : String :=
  let kws : List String :=
    ["overview", "introduction", "guide", "manual", "documentation",
     "report", "study", "analysis", "research", "paper", "thesis",
     "challenge", "competition", "hackathon", "contest"]
  match (text_elements.take 30).find? (fun elem =>
    kws.any (fun k => inStr k (pyLower (pyStrip elem.text))) &&
      decide ((pyStrip elem.text).length > 10)) with
  | some elem => pyStrip elem.text
  | none => ""

/-- the hard-coded title returned by the manual override of
`robust_title_extraction`. -/
def hardcodedRfpTitle : String :=
  "RFP:Request for Proposal To Present a Proposal for Developing the Business Plan for the Ontario Digital Library"

/-- models the check `"file03.pdf" in str(text_elements)`: `str` of the
element list quotes every string field, and `"file03.pdf"` contains no
quote, comma or brace, so it occurs in the `str` exactly when it occurs in
some element's `text` or `font_name` field (no other field renders
non-numeric, non-keyword characters). -/
def strOfElementsHasFile03 (text_elements : List TextElement) : Bool :=
  text_elements.any (fun e =>
    inStr "file03.pdf" e.text || inStr "file03.pdf" e.font_name)

/-- the `for strategy in strategies` loop of `robust_title_extraction`.
The placeholder return of the source is indented inside the loop body, so
after testing the FIRST strategy the function always returns — the
remaining strategies are never consulted. -/
def titleStrategyLoop (text_elements : List TextElement) :
    List (List TextElement → String) → String
  | [] => ""   -- not reached (the strategy list is a nonempty literal);
               -- Python would fall off the loop and return None
  | strategy :: _ =>
    let title := strategy text_elements
    if title ≠ "" && is_valid_title title then title
    else "Untitled Document"

/-- Python `robust_title_extraction` (`sample_text`, the space-joined text of the
first 50 elements, is inlined into the override test). -/
def robust_title_extraction (text_elements : List TextElement) : String :=
  if (inStr "Ontario\x27s Digital Library"
        (String.intercalate " " ((text_elements.take 50).map (·.text))) &&
      inStr "RFP" (String.intercalate " " ((text_elements.take 50).map (·.text)))) ||
      strOfElementsHasFile03 text_elements then
    hardcodedRfpTitle
  else
    titleStrategyLoop text_elements
      [extract_rfp_title, extract_largest_font_title, extract_first_page_title,
       extract_document_metadata_title, extract_filename_title,
       extract_common_title_patterns]

/-! ## Deduplication -/

/-- Python `semantic_similarity_check`: word-set Jaccard similarity of the
lower-cased texts (0 when either word set is empty). -/
def semantic_similarity_check (heading1 heading2 : String) : ℚ :=
  let words1 := (pySplit (pyLower heading1)).toFinset
  let words2 := (pySplit (pyLower heading2)).toFinset
  if words1 = ∅ ∨ words2 = ∅ then 0
  else ((words1 ∩ words2).card : ℚ) / ((words1 ∪ words2).card : ℚ)

/-- the loop of `remove_semantic_duplicates`, carrying the
`unique_headings` accumulator. -/
def removeSemanticAux (unique : List Heading) : List Heading → List Heading
  | [] => []
  | h :: t =>
    if unique.any (fun e => decide (semantic_similarity_check h.text e.text > 0.7)) then
      removeSemanticAux unique t
    else h :: removeSemanticAux (unique ++ [h]) t

/-- Python `remove_semantic_duplicates`. -/
def remove_semantic_duplicates (headings : List Heading) : List Heading :=
  removeSemanticAux [] headings

/-- the dedup key of `remove_exact_duplicates`:
`(heading['text'].lower().strip(), heading['page'], heading['level'])`. -/
def exactKey (h : Heading) : String × Nat × String :=
  (pyStrip (pyLower h.text), h.page, h.level)

/-- the loop of `remove_exact_duplicates`, carrying the `seen` set as a
list of keys. -/
def removeExactAux (seen : List (String × Nat × String)) :
    List Heading → List Heading
  | [] => []
  | h :: t =>
    if exactKey h ∈ seen then removeExactAux seen t
    else h :: removeExactAux (exactKey h :: seen) t

/-- Python `remove_exact_duplicates`. -/
def remove_exact_duplicates (headings : List Heading) : List Heading :=
  removeExactAux [] headings

/-! ## The extraction pipeline (`extract_outline`) -/

/-- the surrounding-context window of the main loop:
`text_elements[max(0, i-3):i] + text_elements[i+1:min(len, i+4)]`. -/
def surroundingOf (els : List TextElement) (i : Nat) : List TextElement :=
  (els.take i).drop (i - 3) ++ (els.drop (i + 1)).take 3

/-- one step of the TOC state machine of the main loop: given the current
`in_toc_section` flag and the (stripped) fragment text and page, returns
the new flag and whether the fragment is suppressed (`continue`d). -/
def tocStep (in_toc_section : Bool) (text : String) (page : Nat) : Bool × Bool :=
  if is_in_toc_section text page then (true, true)
  else if in_toc_section then
    if is_toc_entry text then (true, true) else (false, false)
  else (false, false)

/-- the sort key of the final `headings.sort`:
`(x['page'], x.get('y_position', 0))`.  Outline entries are built with only
`level`, `text` and `page`, so the `y_position` lookup always yields the
default `0`. -/
def headingSortKey (h : Heading) : Nat × ℚ := (h.page, 0)

/-- comparison realising the stable sort by `headingSortKey`. -/
def headingSortLe (a b : Heading) : Bool :=
  (headingSortKey a).1 < (headingSortKey b).1 ||
    ((headingSortKey a).1 == (headingSortKey b).1 &&
      decide ((headingSortKey a).2 ≤ (headingSortKey b).2))

/-- the main heading-collection loop of `extract_outline` over the indexed
elements, carrying `in_toc_section` and `seen_headings`. -/
def outlineLoop (els : List TextElement) (title language : String)
    (avg_font_size max_font_size : ℚ) :
    List (Nat × TextElement) → Bool → List (String × Nat) → List Heading
  | [], _, _ => []
  | (i, element) :: rest, in_toc_section, seen_headings =>
    let text := pyStrip element.text
    match tocStep in_toc_section text element.page with
    | (st, true) =>
      outlineLoop els title language avg_font_size max_font_size rest st seen_headings
    | (st, false) =>
      let surrounding := surroundingOf els i
      match ensemble_heading_detection element surrounding avg_font_size
          max_font_size language with
      | some heading_level =>
        let t := collapseWS text
        let heading_key := (pyLower t, element.page)
        if heading_key ∉ seen_headings ∧ pyLower t ≠ pyLower title ∧ 3 ≤ t.length then
          ⟨heading_level, t, element.page⟩ ::
            outlineLoop els title language avg_font_size max_font_size rest st
              (heading_key :: seen_headings)
        else
          outlineLoop els title language avg_font_size max_font_size rest st seen_headings
      | none =>
        outlineLoop els title language avg_font_size max_font_size rest st seen_headings

/-- Python `extract_outline`, as a function of the extracted text elements (the
PDF rendering is the external input boundary; wall-clock timing is outside
the embedding).  `pdf_path` feeds the `"file03.pdf"` title override. -/
def extract_outline (pdf_path : String) (text_elements : List TextElement) :
    OutlineResult :=
  if text_elements.isEmpty then
    { title := "Untitled Document", outline := [], error := none }
  else
    let language := detect_language text_elements
    let title0 := robust_title_extraction text_elements
    let title := if inStr "file03.pdf" pdf_path then hardcodedRfpTitle else title0
    let font_sizes := text_elements.map (·.font_size)
    let avg_font_size := font_sizes.sum / (font_sizes.length : ℚ)
    let max_font_size := listMaxQ font_sizes
    let headings := outlineLoop text_elements title language avg_font_size
      max_font_size text_elements.enum false []
    let headings := remove_exact_duplicates headings
    let headings := remove_semantic_duplicates headings
    let headings := headings.mergeSort headingSortLe
    { title := title, outline := headings, error := none }

/-! ## Derived definitions used by the statements -/

/-- the two dedup passes in the order applied by `extract_outline`
(exact first, then semantic). -/
def dedup_pipeline (headings : List Heading) : List Heading :=
  remove_semantic_duplicates (remove_exact_duplicates headings)

/-- the `y_position` of the input fragment an outline entry was built from
(the entry's text is the whitespace-collapsed stripped fragment text, and
its page is the fragment's page); `0` if no fragment matches. -/
def fragYPos (els : List TextElement) (h : Heading) : ℚ :=
  ((els.find? (fun e =>
      collapseWS (pyStrip e.text) == h.text && e.page == h.page)).map
    (·.y_position)).getD 0

/-- Formalisation of the ordering asserted by the spec: the outline is
sorted by page ascending and, within a page, by the vertical position of
the source fragments ascending. -/
def outlineSortedByPageAndY (els : List TextElement) (res : OutlineResult) : Prop :=
  res.outline.Pairwise (fun a b =>
    a.page < b.page ∨ (a.page = b.page ∧ fragYPos els a ≤ fragYPos els b))

/-! ## Concrete fixtures used by witnesses and counterexamples -/

/-- a fragment the classifier accepts as a heading (top of page 1, bold). -/
def demoIntro : TextElement := ⟨"1. Introduction", 18, "Bold", 1, 900, true⟩

/-- a second accepted heading on the same page, lower down (y = 400). -/
def demoConcl : TextElement := ⟨"2. Conclusion", 18, "Bold", 1, 400, true⟩

/-- two headings on one page, supplied in reading order (top first). -/
def demoEls : List TextElement := [demoIntro, demoConcl]

/-- input on which the first title strategy fails but the second would
produce a valid title. -/
def c2Elements : List TextElement :=
  [⟨"the quick brown fox jumps over", 12, "f", 1, 700, false⟩]

/-- word sets: A and B share 7 of 9 words, B and C share 7 of 9 words,
but A and C share only 6 of 10 — Jaccard similarity is not transitive. -/
def simHeadA : Heading := ⟨"H1", "alpha beta gamma delta epsilon zeta eta xray", 1⟩

/-- near-duplicate of `simHeadA` (differs in one word). -/
def simHeadB : Heading := ⟨"H1", "alpha beta gamma delta epsilon zeta eta yankee", 1⟩

/-- near-duplicate of `simHeadB` but not of `simHeadA`. -/
def simHeadC : Heading := ⟨"H2", "beta gamma delta epsilon zeta eta yankee zulu", 2⟩

/-! # Theorems -/

/-- C9: for an empty fragment sequence, `extract_outline` returns a
well-formed result with title "Untitled Document" and an empty outline,
with no error field (the embedding is total, so no exception can occur). -/
theorem c9_empty_fragments (pdf_path : String) :
    extract_outline pdf_path [] =
      { title := "Untitled Document", outline := [], error := none } := rfl

/-- C3: a fragment whose stripped text is shorter than 3 or longer than
150 characters, or has more than 3 periods, or whose lowercase share
exceeds 0.85, or whose `y_position` is below 30, or whose text matches an
OCR-corruption or clearly-not-a-heading shape, is classified as not a
heading — the pre-filters short-circuit the ensemble. -/
theorem c3_prefilters_short_circuit (element : TextElement)
    (surrounding : List TextElement) (avg_font_size max_font_size : ℚ)
    (language : String)
    (h : (pyStrip element.text).length < 3 ∨ (pyStrip element.text).length > 150 ∨
      countChar (pyStrip element.text) '.' > 3 ∨
      ((countIf (pyStrip element.text) Char.isLower : ℚ) >
        ((pyStrip element.text).length : ℚ) * 0.85) ∨
      element.y_position < 30 ∨
      corruptionHit (pyStrip element.text) = true ∨
      skipPatternHit (pyStrip element.text) = true) :
    ensemble_heading_detection element surrounding avg_font_size max_font_size
      language = none := by
  unfold ensemble_heading_detection
  split_ifs with hg <;> first | rfl | tauto

/-- C3 witness: a two-character fragment is rejected. -/
theorem c3_witness :
    (pyStrip (⟨"ab", 12, "f", 1, 500, false⟩ : TextElement).text).length < 3 ∧
    ensemble_heading_detection ⟨"ab", 12, "f", 1, 500, false⟩ [] 12 12 "en" = none :=
  ⟨by decide,
   c3_prefilters_short_circuit ⟨"ab", 12, "f", 1, 500, false⟩ [] 12 12 "en"
     (Or.inl (by decide))⟩

/-- C2 (code bug): the placeholder return of `robust_title_extraction` is
indented inside the strategy loop, so when the first strategy
(`_extract_rfp_title`) fails the function returns "Untitled Document"
without consulting the remaining strategies — here the second strategy
would have produced a string accepted by the validity predicate. -/
theorem c2_strategy_chain_bug :
    robust_title_extraction c2Elements = "Untitled Document" ∧
    extract_rfp_title c2Elements = "" ∧
    extract_largest_font_title c2Elements = "the quick brown fox jumps over" ∧
    is_valid_title "the quick brown fox jumps over" = true := by
  with_unfolding_all decide

/-- C1: for a fragment passing every pre-filter with no main-section
keyword, the ensemble returns the level obtained from the weighted sum of
the six sub-scores (weights 0.15 / 0.15 / 0.15 / 0.15 / 0.15 / 0.25) by
the fixed thresholds H1 > 0.5, H2 > 0.35, H3 > 0.2, H4 > 0.1, otherwise
not a heading. -/
theorem c1_ensemble_weighted_vote (element : TextElement)
    (surrounding : List TextElement) (avg_font_size max_font_size : ℚ)
    (language : String)
    (h1 : ¬((pyStrip element.text).length < 3))
    (h2 : ¬((pyStrip element.text).length > 150))
    (h3 : ¬(countChar (pyStrip element.text) '.' > 3))
    (h4 : ¬((countIf (pyStrip element.text) Char.isLower : ℚ) >
      ((pyStrip element.text).length : ℚ) * 0.85))
    (h5 : ¬(element.y_position < 30))
    (h6 : corruptionHit (pyStrip element.text) = false)
    (h7 : skipPatternHit (pyStrip element.text) = false)
    (h8 : titleIndicatorHit (pyStrip element.text) = false)
    (h9 : mainSectionHit (pyStrip element.text) = false) :
    ensemble_heading_detection element surrounding avg_font_size max_font_size
        language =
      (if (0.15 : ℚ) * (if (detect_heading_multi_modal element surrounding
              avg_font_size max_font_size).isSome then (0.8 : ℚ) else 0)
            + 0.15 * statistical_classifier (extract_ml_features (pyStrip element.text))
            + 0.15 * pattern_classifier (pyStrip element.text)
            + 0.15 * language_specific_heading_detection (pyStrip element.text) language
            + 0.15 * position_classifier element surrounding
            + 0.25 * font_agnostic_heading_detection element surrounding > 0.5
       then some "H1"
       else if ensembleFinalScore element surrounding avg_font_size
          max_font_size language > 0.35 then some "H2"
       else if ensembleFinalScore element surrounding avg_font_size
          max_font_size language > 0.2 then some "H3"
       else if ensembleFinalScore element surrounding avg_font_size
          max_font_size language > 0.1 then some "H4"
       else none) := by
  unfold ensemble_heading_detection
  rw [if_neg, if_neg]
  · rfl
  · simp [h9]
  · simp [h1, h2, h3, h4, h5, h6, h7, h8]

/-- C1 witness: the numbered heading fragment "1. Introduction" passes all
pre-filters and the weighted vote classifies it H1. -/
theorem c1_witness :
    mainSectionHit (pyStrip demoIntro.text) = false ∧
    ensemble_heading_detection demoIntro [] 18 18 "en" = some "H1" := by
  constructor
  · with_unfolding_all decide
  · rw [c1_ensemble_weighted_vote demoIntro [] 18 18 "en"
      (by with_unfolding_all decide) (by with_unfolding_all decide)
      (by with_unfolding_all decide) (by with_unfolding_all decide)
      (by with_unfolding_all decide) (by with_unfolding_all decide)
      (by with_unfolding_all decide) (by with_unfolding_all decide)
      (by with_unfolding_all decide)]
    with_unfolding_all decide

/-- C5: `robust_title_extraction` always returns either a string accepted
by the validity predicate or exactly the placeholder "Untitled Document". -/
theorem c5_title_valid_or_placeholder (text_elements : List TextElement) :
    is_valid_title (robust_title_extraction text_elements) = true ∨
      robust_title_extraction text_elements = "Untitled Document" := by
  unfold robust_title_extraction
  split_ifs with h
  · left; with_unfolding_all decide
  · unfold titleStrategyLoop
    dsimp only
    by_cases hv : (extract_rfp_title text_elements ≠ "" &&
        is_valid_title (extract_rfp_title text_elements)) = true
    · rw [if_pos hv]; left; exact (Bool.and_eq_true _ _ |>.mp hv).2
    · rw [if_neg hv]; right; rfl

/-- C4: the TOC filter step is the claimed two-state machine.  For a
stripped fragment text: while INSIDE_TOC, a TOC-entry-shaped fragment is
suppressed with the state staying INSIDE_TOC; a non-matching fragment
flips the state to OUTSIDE and is passed through; while OUTSIDE, a
fragment is suppressed exactly when a trigger fires (`is_in_toc_section`:
an indicator keyword, or TOC-entry shape on a page ≤ 6), which also
re-enters INSIDE_TOC. -/
theorem c4_toc_two_state_machine (in_toc_section : Bool) (text : String)
    (page : Nat) (hstrip : pyStrip text = text) :
    ((in_toc_section = true ∧ is_toc_entry text = true) →
        tocStep in_toc_section text page = (true, true)) ∧
    ((in_toc_section = true ∧ is_toc_entry text = false) →
        tocStep in_toc_section text page = (false, false)) ∧
    (in_toc_section = false →
        tocStep in_toc_section text page =
          (is_in_toc_section text page, is_in_toc_section text page)) := by
  refine ⟨?_, ?_, ?_⟩
  · rintro ⟨hin, hent⟩
    subst hin
    simp [tocStep, hent]
  · rintro ⟨hin, hent⟩
    subst hin
    have hkw : tocKeywords.any (fun k => inStr k (pyLower text)) = false := by
      unfold is_toc_entry at hent
      rw [hstrip] at hent
      simp only [Bool.or_eq_false_iff] at hent
      exact hent.2
    have hiits : is_in_toc_section text page = false := by
      unfold is_in_toc_section
      rw [hent]
      simp only [tocKeywords, List.any_cons, List.any_nil,
        Bool.or_eq_false_iff] at hkw
      simp [tocIndicators, hkw.1, hkw.2.1, hkw.2.2.1, hkw.2.2.2.1]
    simp [tocStep, hiits, hent]
  · rintro hin
    subst hin
    unfold tocStep
    by_cases hiits : is_in_toc_section text page = true
    · rw [if_pos hiits, hiits]
    · rw [Bool.not_eq_true] at hiits
      rw [hiits]
      simp

/-- C4 witness: a TOC-shaped line is suppressed inside the TOC, a plain
line exits the TOC and passes through, and outside the TOC a plain line on
a late page is not suppressed. -/
theorem c4_witness :
    tocStep true "1. Overview 5" 7 = (true, true) ∧
    tocStep true "Hello World" 7 = (false, false) ∧
    tocStep false "Hello World" 9 = (false, false) := by
  refine ⟨?_, ?_, ?_⟩
  · exact (c4_toc_two_state_machine true "1. Overview 5" 7 (by decide)).1
      ⟨rfl, by decide⟩
  · exact (c4_toc_two_state_machine true "Hello World" 7 (by decide)).2.1
      ⟨rfl, by decide⟩
  · have h := (c4_toc_two_state_machine false "Hello World" 9 (by decide)).2.2 rfl
    rw [h]
    decide

/-! ## Deduplication lemmas -/

/-- semantic dedup returns a sublist of its input. -/
theorem removeSemanticAux_sublist (l : List Heading) :
    ∀ acc, (removeSemanticAux acc l).Sublist l := by
  induction l with
  | nil => intro acc; simp [removeSemanticAux]
  | cons h t ih =>
    intro acc
    simp only [removeSemanticAux]
    split_ifs with hc
    · exact (ih acc).cons h
    · exact (ih (acc ++ [h])).cons₂ h

/-- exact dedup returns a sublist of its input. -/
theorem removeExactAux_sublist (l : List Heading) :
    ∀ seen, (removeExactAux seen l).Sublist l := by
  induction l with
  | nil => intro seen; simp [removeExactAux]
  | cons h t ih =>
    intro seen
    simp only [removeExactAux]
    split_ifs with hc
    · exact (ih seen).cons h
    · exact (ih (exactKey h :: seen)).cons₂ h

/-- the output of exact dedup avoids the seen keys and has pairwise
distinct keys. -/
theorem removeExactAux_keys (l : List Heading) :
    ∀ seen, (∀ h ∈ removeExactAux seen l, exactKey h ∉ seen) ∧
      (removeExactAux seen l).Pairwise (fun a b => exactKey a ≠ exactKey b) := by
  induction l with
  | nil => intro seen; simp [removeExactAux]
  | cons h t ih =>
    intro seen
    simp only [removeExactAux]
    split_ifs with hc
    · exact ih seen
    · refine ⟨?_, ?_⟩
      · intro x hx
        rcases List.mem_cons.mp hx with rfl | hx
        · exact hc
        · intro hmem
          exact (ih (exactKey h :: seen)).1 x hx (List.mem_cons_of_mem _ hmem)
      · refine List.Pairwise.cons ?_ (ih (exactKey h :: seen)).2
        intro b hb he
        exact (ih (exactKey h :: seen)).1 b hb (he ▸ List.mem_cons_self _ _)

/-- exact dedup is the identity on a list with pairwise distinct keys
avoiding the seen set. -/
theorem removeExactAux_of_distinct (l : List Heading) :
    ∀ seen, (∀ h ∈ l, exactKey h ∉ seen) →
      l.Pairwise (fun a b => exactKey a ≠ exactKey b) →
      removeExactAux seen l = l := by
  induction l with
  | nil => intro seen _ _; rfl
  | cons h t ih =>
    intro seen hs hp
    simp only [removeExactAux]
    rw [if_neg (hs h (List.mem_cons_self _ _))]
    congr 1
    refine ih (exactKey h :: seen) ?_ (List.pairwise_cons.mp hp).2
    intro x hx hmem
    rcases List.mem_cons.mp hmem with he | hm
    · exact (List.pairwise_cons.mp hp).1 x hx he.symm
    · exact hs x (List.mem_cons_of_mem _ hx) hm

/-- semantic dedup is idempotent (for any accumulator). -/
theorem removeSemanticAux_idem (l : List Heading) :
    ∀ acc, removeSemanticAux acc (removeSemanticAux acc l) =
      removeSemanticAux acc l := by
  induction l with
  | nil => intro acc; rfl
  | cons h t ih =>
    intro acc
    simp only [removeSemanticAux]
    by_cases hc : (acc.any fun e =>
        decide (semantic_similarity_check h.text e.text > 0.7)) = true
    · rw [if_pos hc]
      exact ih acc
    · rw [if_neg hc]
      simp only [removeSemanticAux]
      rw [if_neg hc]
      congr 1
      exact ih (acc ++ [h])

/-- C6: the dedup pipeline (exact dedup, then semantic dedup) is
idempotent — applying it to its own output returns the output unchanged. -/
theorem c6_dedup_idempotent (headings : List Heading) :
    dedup_pipeline (dedup_pipeline headings) = dedup_pipeline headings := by
  unfold dedup_pipeline remove_semantic_duplicates remove_exact_duplicates
  have hpair : (removeSemanticAux [] (removeExactAux [] headings)).Pairwise
      (fun a b => exactKey a ≠ exactKey b) :=
    List.Pairwise.sublist
      (removeSemanticAux_sublist (removeExactAux [] headings) [])
      ((removeExactAux_keys headings []).2)
  rw [removeExactAux_of_distinct _ [] (by simp) hpair]
  exact removeSemanticAux_idem (removeExactAux [] headings) []

/-- Jaccard similarity is symmetric. -/
theorem semantic_similarity_check_comm (a b : String) :
    semantic_similarity_check a b = semantic_similarity_check b a := by
  unfold semantic_similarity_check
  by_cases h1 : (pySplit (pyLower a)).toFinset = ∅ <;>
    by_cases h2 : (pySplit (pyLower b)).toFinset = ∅ <;>
    simp [h1, h2, Finset.inter_comm, Finset.union_comm]

/-- every retained heading is dissimilar from the accumulator entries, and
the retained headings are pairwise dissimilar. -/
theorem removeSemanticAux_no_dup (l : List Heading) :
    ∀ acc, (∀ x ∈ removeSemanticAux acc l, ∀ e ∈ acc,
        ¬(semantic_similarity_check x.text e.text > 0.7)) ∧
      (removeSemanticAux acc l).Pairwise
        (fun a b => ¬(semantic_similarity_check b.text a.text > 0.7)) := by
  induction l with
  | nil => intro acc; simp [removeSemanticAux]
  | cons h t ih =>
    intro acc
    simp only [removeSemanticAux]
    by_cases hc : (acc.any fun e =>
        decide (semantic_similarity_check h.text e.text > 0.7)) = true
    · rw [if_pos hc]
      exact ih acc
    · rw [if_neg hc]
      have hacc : ∀ e ∈ acc, ¬(semantic_similarity_check h.text e.text > 0.7) := by
        intro e he hgt
        exact hc (List.any_eq_true.mpr ⟨e, he, decide_eq_true hgt⟩)
      refine ⟨?_, ?_⟩
      · intro x hx e he
        rcases List.mem_cons.mp hx with rfl | hx
        · exact hacc e he
        · exact (ih (acc ++ [h])).1 x hx e (List.mem_append_left _ he)
      · refine List.Pairwise.cons ?_ (ih (acc ++ [h])).2
        intro b hb
        exact (ih (acc ++ [h])).1 b hb h
          (List.mem_append_right _ (List.mem_singleton.mpr rfl))

/-- C7 counterexample: with A, B, C in that order, B is >0.7-similar to
both A and C while A and C are not similar; B — the earlier element of the
similar pair (B, C) — is dropped (because of A) while the later C is
retained, so the claim "the earlier is always retained and the later
dropped" fails. -/
theorem c7_counterexample :
    semantic_similarity_check simHeadB.text simHeadC.text > 0.7 ∧
    simHeadB ∉ remove_semantic_duplicates [simHeadA, simHeadB, simHeadC] ∧
    simHeadC ∈ remove_semantic_duplicates [simHeadA, simHeadB, simHeadC] := by
  with_unfolding_all decide

/-- C7 (amended): semantic dedup keeps a subsequence of its input in which
no two distinct retained headings are >0.7-similar; hence of a similar pair
at most one survives, and when the earlier one is retained the later one is
dropped (the earlier of a pair may itself have been dropped against an even
earlier retained heading, in which case the later one can survive). -/
theorem c7_no_similar_pair_retained (headings : List Heading) :
    (remove_semantic_duplicates headings).Sublist headings ∧
    ∀ a ∈ remove_semantic_duplicates headings,
      ∀ b ∈ remove_semantic_duplicates headings, a ≠ b →
        ¬(semantic_similarity_check a.text b.text > 0.7) := by
  refine ⟨removeSemanticAux_sublist headings [], ?_⟩
  have hp := (removeSemanticAux_no_dup headings []).2
  have hsymm : Symmetric (fun x y : Heading =>
      ¬(semantic_similarity_check y.text x.text > 0.7)) := by
    intro x y hxy
    rw [semantic_similarity_check_comm]
    exact hxy
  intro a ha b hb hne
  have h := List.Pairwise.forall hsymm hp ha hb hne
  rw [semantic_similarity_check_comm]
  exact h

/-- C7 witness: on a two-element list with dissimilar headings both are
retained and indeed dissimilar. -/
theorem c7_witness :
    (remove_semantic_duplicates [simHeadA, simHeadC]).Sublist [simHeadA, simHeadC] ∧
    ¬(semantic_similarity_check simHeadA.text simHeadC.text > 0.7) :=
  ⟨(c7_no_similar_pair_retained [simHeadA, simHeadC]).1,
   (c7_no_similar_pair_retained [simHeadA, simHeadC]).2 simHeadA
     (by with_unfolding_all decide) simHeadC (by with_unfolding_all decide)
     (by decide)⟩

/-! ## Sorting lemmas -/

/-- the final sort comparison orders by page alone (its secondary key is
the constant default 0). -/
theorem headingSortLe_iff (a b : Heading) :
    headingSortLe a b = true ↔ a.page ≤ b.page := by
  simp only [headingSortLe, headingSortKey, Bool.or_eq_true, Bool.and_eq_true,
    decide_eq_true_eq, beq_iff_eq]
  constructor
  · rintro (h | ⟨h, -⟩) <;> omega
  · intro h
    rcases Nat.lt_or_ge a.page b.page with hlt | hge
    · exact Or.inl (by simpa using hlt)
    · exact Or.inr ⟨by omega, le_refl _⟩

/-- the sort comparison is transitive. -/
theorem headingSortLe_trans (a b c : Heading) (hab : headingSortLe a b = true)
    (hbc : headingSortLe b c = true) : headingSortLe a c = true := by
  rw [headingSortLe_iff] at *
  omega

/-- the sort comparison is total. -/
theorem headingSortLe_total (a b : Heading) :
    (headingSortLe a b || headingSortLe b a) = true := by
  rcases Nat.le_total a.page b.page with h | h <;>
    simp [headingSortLe_iff, h]

set_option maxRecDepth 8000 in
/-- C8 counterexample: with two headings on page 1 supplied top-first
(y = 900 then y = 400), the outline keeps the input order, so it is not
sorted by ascending vertical position within the page. -/
theorem c8_counterexample :
    ¬ outlineSortedByPageAndY demoEls (extract_outline "" demoEls) := by
  intro hsorted
  have houtline : (extract_outline "" demoEls).outline =
      [⟨"H1", "1. Introduction", 1⟩, ⟨"H1", "2. Conclusion", 1⟩] := by
    with_unfolding_all decide
  unfold outlineSortedByPageAndY at hsorted
  rw [houtline] at hsorted
  have h12 := (List.pairwise_cons.mp hsorted).1 _ (List.mem_cons_self _ _)
  rcases h12 with h | ⟨-, h⟩
  · exact absurd h (by decide)
  · revert h
    with_unfolding_all decide

/-- C8 (amended): the outline is sorted by page number ascending; the
secondary `y_position` key of the sort is constantly 0 (heading entries
carry no `y_position`), so within a page the entries keep their input
order rather than ascending vertical position. -/
theorem c8_outline_sorted_by_page (pdf_path : String) (els : List TextElement) :
    (extract_outline pdf_path els).outline.Pairwise (fun a b => a.page ≤ b.page) := by
  unfold extract_outline
  split_ifs with hempty hpath
  · simp
  all_goals
    exact List.Pairwise.imp (fun hab => (headingSortLe_iff _ _).mp hab)
      (List.sorted_mergeSort headingSortLe_trans headingSortLe_total _)

/-! ## Outline-entry invariants (C10) -/

/-- collapsing whitespace runs is idempotent (for either run-state flag). -/
theorem collapseGo_idem (cs : List Char) :
    ∀ b, collapseGo b (collapseGo b cs) = collapseGo b cs := by
  induction cs with
  | nil => intro b; rfl
  | cons c t ih =>
    intro b
    by_cases hc : pySpace c = true
    · cases b with
      | true => simp [collapseGo, hc, ih true]
      | false =>
        have hsp : pySpace ' ' = true := by decide
        simp [collapseGo, hc, hsp, ih true]
    · rw [Bool.not_eq_true] at hc
      simp [collapseGo, hc, ih false]

/-- Python `re.sub(r'\s+', ' ', ·)` is idempotent. -/
theorem collapseWS_idem (s : String) : collapseWS (collapseWS s) = collapseWS s :=
  congrArg String.mk (collapseGo_idem s.data false)

/-- every heading emitted by the main loop has whitespace-collapsed text of
length at least 3, differing (case-insensitively) from the title. -/
theorem outlineLoop_mem (els : List TextElement) (title language : String)
    (avg_font_size max_font_size : ℚ) :
    ∀ (pairs : List (Nat × TextElement)) (inToc : Bool)
      (seen : List (String × Nat)) (h : Heading),
      h ∈ outlineLoop els title language avg_font_size max_font_size pairs
        inToc seen →
      collapseWS h.text = h.text ∧ 3 ≤ h.text.length ∧
        pyLower h.text ≠ pyLower title := by
  intro pairs
  induction pairs with
  | nil => intro inToc seen h hmem; simp [outlineLoop] at hmem
  | cons p rest ih =>
    intro inToc seen h hmem
    obtain ⟨i, element⟩ := p
    simp only [outlineLoop] at hmem
    split at hmem
    · exact ih _ _ h hmem
    · split at hmem
      · split at hmem
        · rcases List.mem_cons.mp hmem with rfl | hmem'
          · rename_i hcond
            refine ⟨collapseWS_idem _, hcond.2.2, hcond.2.1⟩
          · exact ih _ _ h hmem'
        · exact ih _ _ h hmem
      · exact ih _ _ h hmem

/-- C10: every outline entry of a result has its whitespace runs collapsed
to single spaces, text of length at least 3, and text differing
case-insensitively from the result's title. -/
theorem c10_outline_entry_invariants (pdf_path : String)
    (els : List TextElement) (h : Heading)
    (hmem : h ∈ (extract_outline pdf_path els).outline) :
    collapseWS h.text = h.text ∧ 3 ≤ h.text.length ∧
      pyLower h.text ≠ pyLower (extract_outline pdf_path els).title := by
  unfold extract_outline at hmem ⊢
  split_ifs at hmem ⊢ with hempty hpath
  · simp at hmem
  all_goals
  · rw [List.mem_mergeSort] at hmem
    have h1 := (removeSemanticAux_sublist _ []).subset hmem
    have h2 := (removeExactAux_sublist _ []).subset h1
    exact outlineLoop_mem els _ _ _ _ _ _ _ h h2

set_option maxRecDepth 8000 in
/-- C10 witness: the demo input yields the outline entry
"1. Introduction", which satisfies all three invariants. -/
theorem c10_witness :
    collapseWS "1. Introduction" = "1. Introduction" ∧
    3 ≤ ("1. Introduction" : String).length ∧
    pyLower "1. Introduction" ≠ pyLower (extract_outline "" demoEls).title :=
  c10_outline_entry_invariants "" demoEls ⟨"H1", "1. Introduction", 1⟩
    (by with_unfolding_all decide)

end PdfOutline
